import Mathlib

/-!
Verification of the simulation core of a Space Invaders clone
(src/main.cpp).  The C++ code is shallowly embedded: `size_t` values are
modelled as `Nat` with explicit `% 2^64` wherever the source can wrap,
`int` values as `Int`, the fixed `Bullet bullets[128]` array and the
heap-allocated alien / death-counter arrays as total functions `Nat → _`
indexed like the C arrays, and the `while`/`for` loops of `main`'s
simulation phase as fuel-based structural recursions whose fuel provably
dominates the number of iterations the C++ loop performs.
-/

/-- Number of values of `size_t` (64-bit): unsigned arithmetic is mod `SZ`. -/
def SZ : Nat := 18446744073709551616

/-- Value of an `Int` expression stored into / compared as a `size_t`:
reduce mod `2^64` and take the (nonnegative) representative. -/
def szOfInt (z : Int) : Nat := (z % (SZ : Int)).toNat

/-- Pointwise update of a function modelling a C array slot write. -/
def upd {α : Type} (f : Nat → α) (i : Nat) (a : α) : Nat → α :=
  fun j => if j = i then a else f j

/-- `struct Sprite` (main.cpp:59): width, height and the `uint8_t` mask
cells in row-major order; a nonzero cell is opaque. -/
structure Sprite where
  width : Nat
  height : Nat
  data : List Nat

/-- `bullet_sprite` (main.cpp:353), a 1×3 column of opaque pixels. -/
def bullet_sprite : Sprite := ⟨1, 3, [1, 1, 1]⟩

/-- `player_sprite` (main.cpp:339), 11×7. -/
def player_sprite : Sprite :=
  ⟨11, 7,
   [0,0,0,0,0,1,0,0,0,0,0,
    0,0,0,0,1,1,1,0,0,0,0,
    0,0,0,0,1,1,1,0,0,0,0,
    0,1,1,1,1,1,1,1,1,1,0,
    1,1,1,1,1,1,1,1,1,1,1,
    1,1,1,1,1,1,1,1,1,1,1,
    1,1,1,1,1,1,1,1,1,1,1]⟩

/-- `alien_death_sprite` (main.cpp:443), 13×7. -/
def alien_death_sprite : Sprite :=
  ⟨13, 7,
   [0,1,0,0,1,0,0,0,1,0,0,1,0,
    0,0,1,0,0,1,0,1,0,0,1,0,0,
    0,0,0,1,0,0,0,0,0,1,0,0,0,
    1,1,0,0,0,0,0,0,0,0,0,1,1,
    0,0,0,1,0,0,0,0,0,1,0,0,0,
    0,0,1,0,0,1,0,1,0,0,1,0,0,
    0,1,0,0,1,0,0,0,1,0,0,1,0]⟩

/-- `alien_sprites[6]` (main.cpp:363-441): two animation frames for each
of the three alien types; frames `2*i` and `2*i+1` belong to type `i+1`. -/
def alien_sprites : List Sprite :=
  [⟨8, 8,
    [0,0,0,1,1,0,0,0,
     0,0,1,1,1,1,0,0,
     0,1,1,1,1,1,1,0,
     1,1,0,1,1,0,1,1,
     1,1,1,1,1,1,1,1,
     0,1,0,1,1,0,1,0,
     1,0,0,0,0,0,0,1,
     0,1,0,0,0,0,1,0]⟩,
   ⟨8, 8,
    [0,0,0,1,1,0,0,0,
     0,0,1,1,1,1,0,0,
     0,1,1,1,1,1,1,0,
     1,1,0,1,1,0,1,1,
     1,1,1,1,1,1,1,1,
     0,0,1,0,0,1,0,0,
     0,1,0,1,1,0,1,0,
     1,0,1,0,0,1,0,1]⟩,
   ⟨11, 8,
    [0,0,1,0,0,0,0,0,1,0,0,
     0,0,0,1,0,0,0,1,0,0,0,
     0,0,1,1,1,1,1,1,1,0,0,
     0,1,1,0,1,1,1,0,1,1,0,
     1,1,1,1,1,1,1,1,1,1,1,
     1,0,1,1,1,1,1,1,1,0,1,
     1,0,1,0,0,0,0,0,1,0,1,
     0,0,0,1,1,0,1,1,0,0,0]⟩,
   ⟨11, 8,
    [0,0,1,0,0,0,0,0,1,0,0,
     1,0,0,1,0,0,0,1,0,0,1,
     1,0,1,1,1,1,1,1,1,0,1,
     1,1,1,0,1,1,1,0,1,1,1,
     1,1,1,1,1,1,1,1,1,1,1,
     0,1,1,1,1,1,1,1,1,1,0,
     0,0,1,0,0,0,0,0,1,0,0,
     0,1,0,0,0,0,0,0,0,1,0]⟩,
   ⟨12, 8,
    [0,0,0,0,1,1,1,1,0,0,0,0,
     0,1,1,1,1,1,1,1,1,1,1,0,
     1,1,1,1,1,1,1,1,1,1,1,1,
     1,1,1,0,0,1,1,0,0,1,1,1,
     1,1,1,1,1,1,1,1,1,1,1,1,
     0,0,0,1,1,0,0,1,1,0,0,0,
     0,0,1,1,0,1,1,0,1,1,0,0,
     1,1,0,0,0,0,0,0,0,0,1,1]⟩,
   ⟨12, 8,
    [0,0,0,0,1,1,1,1,0,0,0,0,
     0,1,1,1,1,1,1,1,1,1,1,0,
     1,1,1,1,1,1,1,1,1,1,1,1,
     1,1,1,0,0,1,1,0,0,1,1,1,
     1,1,1,1,1,1,1,1,1,1,1,1,
     0,0,1,1,1,0,0,1,1,1,0,0,
     0,1,1,0,0,1,1,0,0,1,1,0,
     0,0,1,1,0,0,0,0,1,1,0,0]⟩]

/-- `sprite_overlap_check` (main.cpp:111-123): axis-aligned rectangle
overlap with strict comparisons; the four sums are `size_t` additions and
therefore wrap mod `2^64`. -/
def sprite_overlap_check (sp_a : Sprite) (x_a y_a : Nat)
    (sp_b : Sprite) (x_b y_b : Nat) : Bool :=
  decide (x_a < (x_b + sp_b.width) % SZ) &&
  decide ((x_a + sp_a.width) % SZ > x_b) &&
  decide (y_a < (y_b + sp_b.height) % SZ) &&
  decide ((y_a + sp_a.height) % SZ > y_b)

/-- `struct Buffer` (main.cpp:54): pixel store modelled as a total
function from the row-major index `sy * width + sx` to the pixel color. -/
structure Buffer where
  width : Nat
  height : Nat
  data : Nat → Nat

/-- Destination column of mask column `xi`: `x + xi` in `size_t`. -/
def destX (x xi : Nat) : Nat := (x + xi) % SZ

/-- Destination row of mask row `yi`: `sprite.height - 1 + y - yi`
computed in `size_t` (main.cpp:101); a would-be-negative value wraps. -/
def destY (sp : Sprite) (y yi : Nat) : Nat :=
  szOfInt ((sp.height : Int) - 1 + (y : Int) - (yi : Int))

/-- Body of the inner loop of `buffer_sprite_draw` (main.cpp:103-106):
write `color` at the destination of cell `(xi, yi)` when the cell is
opaque and the destination is inside the buffer, else do nothing. -/
def drawCell (buffer : Buffer) (sp : Sprite) (x y color xi yi : Nat) : Buffer :=
  if sp.data.getD (yi * sp.width + xi) 0 ≠ 0 ∧
      destY sp y yi < buffer.height ∧ destX x xi < buffer.width then
    { buffer with
      data := upd buffer.data (destY sp y yi * buffer.width + destX x xi) color }
  else buffer

/-- Inner `yi` loop of `buffer_sprite_draw` over rows `0, …, n-1`
(ascending, as in main.cpp:100). -/
def drawColLoop (sp : Sprite) (x y color xi : Nat) : Nat → Buffer → Buffer
  | 0, b => b
  | Nat.succ n, b => drawCell (drawColLoop sp x y color xi n b) sp x y color xi n

/-- Outer `xi` loop of `buffer_sprite_draw` over columns `0, …, n-1`. -/
def drawRowLoop (sp : Sprite) (x y color : Nat) : Nat → Buffer → Buffer
  | 0, b => b
  | Nat.succ n, b => drawColLoop sp x y color n sp.height (drawRowLoop sp x y color n b)

/-- `buffer_sprite_draw` (main.cpp:97-109). -/
def buffer_sprite_draw (b : Buffer) (sp : Sprite) (x y color : Nat) : Buffer :=
  drawRowLoop sp x y color sp.width b

/-- Mask cell `(xi, yi)` is opaque and its clipped destination is exactly
the in-bounds pixel index `p` of a `W × H` buffer. -/
def hitsPixel (W H : Nat) (sp : Sprite) (x y xi yi p : Nat) : Bool :=
  decide (sp.data.getD (yi * sp.width + xi) 0 ≠ 0) &&
  decide (destY sp y yi < H) && decide (destX x xi < W) &&
  decide (p = destY sp y yi * W + destX x xi)

/-- Some opaque cell of the sprite lands exactly on pixel index `p`. -/
def spriteHits (W H : Nat) (sp : Sprite) (x y p : Nat) : Bool :=
  (List.range sp.width).any fun xi =>
    (List.range sp.height).any fun yi => hitsPixel W H sp x y xi yi p

/-- `GAME_MAX_BULLETS` (main.cpp:6). -/
def GAME_MAX_BULLETS : Nat := 128

/-- `ALIEN_DEAD` (main.cpp:47). -/
def ALIEN_DEAD : Nat := 0

/-- `struct Alien` (main.cpp:64). -/
structure Alien where
  x : Nat
  y : Nat
  type : Nat

/-- `struct Player` (main.cpp:69). -/
structure Player where
  x : Nat
  y : Nat
  life : Nat

/-- `struct Bullet` (main.cpp:74). -/
structure Bullet where
  x : Nat
  y : Nat
  dir : Int

/-- `struct Game` (main.cpp:79).  The alien array and the fixed 128-slot
bullet array are modelled as total functions; only indices below
`num_aliens` / `num_bullets` are meaningful, exactly as in the source. -/
structure Game where
  width : Nat
  height : Nat
  num_aliens : Nat
  num_bullets : Nat
  aliens : Nat → Alien
  player : Player
  bullets : Nat → Bullet

/-- `struct SpriteAnimation` (main.cpp:88). -/
structure SpriteAnimation where
  loop : Bool
  num_frames : Nat
  frame_duration : Nat
  time : Nat
  frames : List Sprite

/-- The whole mutable state of the game loop: `game`, the parallel
`death_counters` array (main.cpp:506) and the three animation clocks
`alien_animation[3]` (main.cpp:484). -/
structure GameState where
  game : Game
  death_counters : Nat → Nat
  anims : List SpriteAnimation

/-- The per-frame input snapshot: the accumulated `move_dir` and the
edge-triggered `fire_pressed` flag read by one loop iteration. -/
structure Input where
  move_dir : Int
  fire : Bool

/-- Current frame sprite of the animation driving alien type `t`:
`alien_animation[type - 1].frames[time / frame_duration]`
(main.cpp:589-591).  The C++ indexes both arrays directly; the model
returns a dummy sprite on an out-of-range index, which no reachable
state exercises. -/
def currentAlienSprite (anims : List SpriteAnimation) (t : Nat) : Sprite :=
  let animation := anims.getD (t - 1) ⟨true, 0, 1, 0, []⟩
  animation.frames.getD (animation.time / animation.frame_duration) ⟨0, 0, []⟩

/-- Swap-remove of bullet slot `bi` (main.cpp:578-579 and 600-601):
overwrite slot `bi` with the last active slot and shrink the count.
When `num_bullets = 0` the C++ reads `bullets[SIZE_MAX]`, which is out
of bounds of the 128-slot array (undefined behavior, reachable only
through the kill-scan bug exhibited for claim C1); the model truncates
both the index and the decrement at 0 there. -/
def swapRemoveBullet (g : Game) (bi : Nat) : Game :=
  { g with
    bullets := upd g.bullets bi (g.bullets (g.num_bullets - 1)),
    num_bullets := g.num_bullets - 1 }

/-- `game.bullets[bi].y += game.bullets[bi].dir` (main.cpp:575), a
`size_t += int` update, so the sum wraps mod `2^64`. -/
def moveBullet (g : Game) (bi : Nat) : Game :=
  let b := g.bullets bi
  { g with bullets := upd g.bullets bi { b with y := szOfInt ((b.y : Int) + b.dir) } }

/-- The kill assignment (main.cpp:596-599): mark alien `ai` dead and
recenter it for the death sprite; `w` is the width of the alien's
current animation frame.  Both subtractions are `size_t` subtractions. -/
def killAlien (g : Game) (ai w : Nat) : Game :=
  let a := g.aliens ai
  let shift := szOfInt ((alien_death_sprite.width : Int) - (w : Int)) / 2
  let a2 : Alien := { x := szOfInt ((a.x : Int) - (shift : Int)), y := a.y, type := ALIEN_DEAD }
  { g with aliens := upd g.aliens ai a2 }

/-- The inner alien scan of the bullet phase (main.cpp:584-604) for the
bullet in slot `bi`, starting at alien index `ai`.  Faithful to the
source, the `continue` after a kill targets this inner loop, so the scan
proceeds to the next alien with the (now swapped) contents of slot `bi`.
`fuel` is the number of remaining aliens; since no branch changes
`num_aliens`, starting with `fuel = num_aliens` and `ai = 0` performs
exactly the iterations of the C++ `for (ai = 0; ai < num_aliens; ai++)`. -/
def hitScan (anims : List SpriteAnimation) (bi : Nat) : Nat → Nat → Game → Game
  | 0, _, g => g
  | Nat.succ fuel, ai, g =>
    if ai < g.num_aliens then
      let alien := g.aliens ai
      if alien.type = ALIEN_DEAD then hitScan anims bi fuel (ai + 1) g
      else
        let sp := currentAlienSprite anims alien.type
        let b := g.bullets bi
        if sprite_overlap_check bullet_sprite b.x b.y sp alien.x alien.y then
          hitScan anims bi fuel (ai + 1) (swapRemoveBullet (killAlien g ai sp.width) bi)
        else hitScan anims bi fuel (ai + 1) g
    else g

/-- The bullet loop (main.cpp:574-607): move the bullet in slot `bi`,
despawn it if its new `y` left `[bullet_sprite.height, height)` (and
re-examine the same slot), otherwise run the alien scan and advance to
the next slot.  Each iteration strictly decreases `num_bullets - bi`, so
`fuel = num_bullets` at entry dominates the C++ loop's iteration count:
when the fuel runs out the loop guard `bi < num_bullets` is already
false. -/
def bulletLoop (anims : List SpriteAnimation) : Nat → Nat → Game → Game
  | 0, _, g => g
  | Nat.succ fuel, bi, g =>
    if bi < g.num_bullets then
      let g1 := moveBullet g bi
      if g1.height ≤ (g1.bullets bi).y ∨ (g1.bullets bi).y < bullet_sprite.height then
        bulletLoop anims fuel bi (swapRemoveBullet g1 bi)
      else bulletLoop anims fuel (bi + 1) (hitScan anims bi g1.num_aliens 0 g1)
    else g

/-- Whole bullet phase of one simulation step. -/
def bulletPhase (anims : List SpriteAnimation) (g : Game) : Game :=
  bulletLoop anims g.num_bullets 0 g

/-- Player movement (main.cpp:609-617) with `pmd = player_move_dir`.
All three conditions and all assignments are `size_t` arithmetic on
`player.x` mixed with the `int` move delta, hence the `szOfInt`s; note
that `x ≤ 0` on a `size_t` means `x = 0`. -/
def playerPhase (g : Game) (pmd : Int) : Game :=
  if pmd ≠ 0 then
    if g.width ≤ szOfInt ((g.player.x : Int) + (player_sprite.width : Int) + pmd) then
      { g with player := { g.player with
          x := szOfInt ((g.width : Int) - (player_sprite.width : Int) - pmd) } }
    else if szOfInt ((g.player.x : Int) + pmd) ≤ 0 then
      { g with player := { g.player with x := 0 } }
    else
      { g with player := { g.player with x := szOfInt ((g.player.x : Int) + pmd) } }
  else g

/-- Fire processing (main.cpp:620-627): spawn one upward bullet centered
on the player when a fire edge was registered and the count is below
capacity. -/
def firePhase (g : Game) (fire : Bool) : Game :=
  if fire ∧ g.num_bullets < GAME_MAX_BULLETS then
    { g with
      bullets := upd g.bullets g.num_bullets
        { x := szOfInt ((g.player.x : Int) + ((player_sprite.width / 2 : Nat) : Int)),
          y := szOfInt ((g.player.y : Int) + ((player_sprite.height : Nat) : Int)),
          dir := 2 },
      num_bullets := g.num_bullets + 1 }
  else g

/-- Death-counter decay (main.cpp:566-571): each dead alien with a
nonzero counter is decremented by one; the loop body at index `ai`
depends only on slot `ai`, so the sequential C++ loop is a pointwise
update. -/
def decayPhase (g : Game) (dc : Nat → Nat) : Nat → Nat :=
  fun i => if i < g.num_aliens ∧ (g.aliens i).type = ALIEN_DEAD ∧ dc i ≠ 0 then dc i - 1
           else dc i

/-- Animation clock advance (main.cpp:547-553): `++time`, wrapping the
`size_t` increment, then reset to 0 on reaching
`num_frames * frame_duration`. -/
def animTick (a : SpriteAnimation) : SpriteAnimation :=
  let t := (a.time + 1) % SZ
  { a with time := if t = a.num_frames * a.frame_duration then 0 else t }

/-- One iteration of the game loop (main.cpp:513-630), restricted to the
state it mutates, in source order: animation advance, death-counter
decay, bullet movement/despawn/collision, player movement with
`player_move_dir = 2 * move_dir` (main.cpp:563), fire processing. -/
def step (s : GameState) (inp : Input) : GameState :=
  let anims := s.anims.map animTick
  let dc := decayPhase s.game s.death_counters
  let g1 := bulletPhase anims s.game
  let g2 := playerPhase g1 (2 * inp.move_dir)
  let g3 := firePhase g2 inp.fire
  { game := g3, death_counters := dc, anims := anims }

/-- Iterated simulation: one `step` per element of the input list. -/
def run (s : GameState) : List Input → GameState
  | [] => s
  | inp :: rest => run (step s inp) rest

/-- Initial alien `i` of the 5×12 grid (main.cpp:471-481), with
`yi = i / 12` the row (bottom row first, rows ascend in `y`) and
`xi = i % 12` the column. -/
def initAlien (i : Nat) : Alien :=
  let yi := i / 12
  let xi := i % 12
  let t := (5 - yi) / 2 + 1
  let sp := alien_sprites.getD (2 * (t - 1)) ⟨0, 0, []⟩
  { x := 16 * xi + 20 + (alien_death_sprite.width - sp.width) / 2,
    y := 17 * yi + 128,
    type := t }

/-- The three animation clocks as initialized in main.cpp:486-495. -/
def initAnims : List SpriteAnimation :=
  [{ loop := true, num_frames := 2, frame_duration := 10, time := 0,
     frames := [alien_sprites.getD 0 ⟨0, 0, []⟩, alien_sprites.getD 1 ⟨0, 0, []⟩] },
   { loop := true, num_frames := 2, frame_duration := 10, time := 0,
     frames := [alien_sprites.getD 2 ⟨0, 0, []⟩, alien_sprites.getD 3 ⟨0, 0, []⟩] },
   { loop := true, num_frames := 2, frame_duration := 10, time := 0,
     frames := [alien_sprites.getD 4 ⟨0, 0, []⟩, alien_sprites.getD 5 ⟨0, 0, []⟩] }]

/-- The game as initialized in main.cpp:457-481 (board 224×256, 60
aliens, no bullets, player at the horizontal center).  The C++ leaves
the 128 bullet slots uninitialized; the model fills them with a dummy
bullet, which is never read while `num_bullets = 0`. -/
def initGame : Game :=
  { width := 224, height := 256, num_aliens := 60, num_bullets := 0,
    aliens := initAlien,
    player := { x := 224 / 2, y := 32, life := 3 },
    bullets := fun _ => { x := 0, y := 0, dir := 0 } }

/-- Full initial state: all 60 death counters start at 10 (main.cpp:508). -/
def initState : GameState :=
  { game := initGame, death_counters := fun _ => 10, anims := initAnims }

/-- The draw loop's gate for alien `i` (main.cpp:517-525): the slot is
drawn with the death sprite exactly when the counter is nonzero and the
type is `ALIEN_DEAD`. -/
def deathSpriteShown (s : GameState) (i : Nat) : Bool :=
  decide (i < s.game.num_aliens) && decide (s.death_counters i ≠ 0) &&
  decide ((s.game.aliens i).type = ALIEN_DEAD)

/-- Invariant of the active bullets: every slot below `num_bullets`
holds a bullet inside the visible vertical range moving upward. -/
def BulletInv (g : Game) : Prop :=
  ∀ i, i < g.num_bullets →
    bullet_sprite.height ≤ (g.bullets i).y ∧ (g.bullets i).y < g.height ∧
    (g.bullets i).dir = 2

/-- `BulletInv` with slot `bi` exempted (the slot being processed). -/
def BulletInvExcept (g : Game) (bi : Nat) : Prop :=
  ∀ i, i < g.num_bullets → i ≠ bi →
    bullet_sprite.height ≤ (g.bullets i).y ∧ (g.bullets i).y < g.height ∧
    (g.bullets i).dir = 2

/-- Step invariant used for the bullet-bounds claim: fixed board height,
fixed player row, and `BulletInv`. -/
def StInv (s : GameState) : Prop :=
  s.game.height = 256 ∧ s.game.player.y = 32 ∧ BulletInv s.game

/-- Invariant for claim C10: every living alien still has its initial
death counter 10. -/
def LiveCountersInv (s : GameState) : Prop :=
  ∀ i, i < s.game.num_aliens → (s.game.aliens i).type ≠ ALIEN_DEAD →
    s.death_counters i = 10

/-- The three animation clocks after `n` simulation steps: the initial
animations with all clocks at `n % 20`. -/
def animsAt (n : Nat) : List SpriteAnimation :=
  initAnims.map fun a => { a with time := n % 20 }

/-- Concrete state exhibiting the kill-scan bug of claim C1: two living
type-1 aliens stacked at `(10, 100)` and a single bullet at `(12, 96)`
moving up; after its move to `y = 98` the bullet's 1×3 rectangle
overlaps both aliens' 8×8 frames. -/
def cexC1 : GameState :=
  { game := { width := 224, height := 256, num_aliens := 2, num_bullets := 1,
              aliens := upd (upd (fun _ => ⟨0, 0, 0⟩) 0 ⟨10, 100, 1⟩) 1 ⟨10, 100, 1⟩,
              player := ⟨112, 32, 3⟩,
              bullets := upd (fun _ => ⟨0, 0, 0⟩) 0 ⟨12, 96, 2⟩ },
    death_counters := fun _ => 10,
    anims := initAnims }

/-- The game with the player parked at the right clamping bound
`width - player_sprite.width = 213` (claim C2). -/
def atRightBound : Game :=
  { initGame with player := ⟨213, 32, 3⟩ }

/-- Initial game with alien 0 (bottom-left slot) already dead, used to
instantiate the death-sequence theorem of claim C7. -/
def deadAlienGame : Game :=
  { initGame with aliens := upd initAlien 0 ⟨20, 128, ALIEN_DEAD⟩ }

/-- State around `deadAlienGame` with all death counters at 10. -/
def deadAlienState : GameState :=
  { initState with game := deadAlienGame }

/-! ## Helper lemmas -/

theorem SZ_pos : 0 < (SZ : Int) := by decide

theorem szOfInt_lt (z : Int) : szOfInt z < SZ := by
  have h1 : 0 ≤ z % (SZ : Int) := Int.emod_nonneg z (by decide)
  have h2 : z % (SZ : Int) < (SZ : Int) := Int.emod_lt_of_pos z SZ_pos
  have h3 : ((z % (SZ : Int)).toNat : Int) = z % (SZ : Int) := Int.toNat_of_nonneg h1
  unfold szOfInt
  omega

theorem szOfInt_natCast (n : Nat) (h : n < SZ) : szOfInt (n : Int) = n := by
  unfold szOfInt
  rw [Int.emod_eq_of_lt (by positivity) (by exact_mod_cast h)]
  exact Int.toNat_natCast n

theorem upd_same {α : Type} (f : Nat → α) (i : Nat) (a : α) : upd f i a i = a := by
  simp [upd]

theorem upd_other {α : Type} (f : Nat → α) (i j : Nat) (a : α) (h : j ≠ i) :
    upd f i a j = f j := by
  simp [upd, h]

/-! ## Claim C4: the rectangle-overlap test -/

/-- C4, amended: for sprites and positions whose four edge sums do not
overflow `size_t`, `sprite_overlap_check` returns `true` exactly when
the two rectangles intersect under the strict-inequality rule, so
rectangles that merely touch along an edge do not overlap. -/
theorem C4_overlap_iff (sp_a : Sprite) (x_a y_a : Nat) (sp_b : Sprite) (x_b y_b : Nat)
    (h1 : x_b + sp_b.width < SZ) (h2 : x_a + sp_a.width < SZ)
    (h3 : y_b + sp_b.height < SZ) (h4 : y_a + sp_a.height < SZ) :
    sprite_overlap_check sp_a x_a y_a sp_b x_b y_b = true ↔
      (x_a < x_b + sp_b.width ∧ x_a + sp_a.width > x_b ∧
       y_a < y_b + sp_b.height ∧ y_a + sp_a.height > y_b) := by
  unfold sprite_overlap_check
  rw [Nat.mod_eq_of_lt h1, Nat.mod_eq_of_lt h2, Nat.mod_eq_of_lt h3, Nat.mod_eq_of_lt h4]
  simp [Bool.and_eq_true, decide_eq_true_eq, and_assoc]

/-- Witness for C4: the moved bullet of the C1 scenario against an 8×8
alien frame, with all four no-overflow side conditions discharged. -/
theorem C4_overlap_iff_witness :
    sprite_overlap_check bullet_sprite 12 98 (alien_sprites.getD 0 ⟨0, 0, []⟩) 10 100 = true ↔
      (12 < 10 + (alien_sprites.getD 0 ⟨0, 0, []⟩).width ∧
       12 + bullet_sprite.width > 10 ∧
       98 < 100 + (alien_sprites.getD 0 ⟨0, 0, []⟩).height ∧
       98 + bullet_sprite.height > 100) :=
  C4_overlap_iff bullet_sprite 12 98 (alien_sprites.getD 0 ⟨0, 0, []⟩) 10 100
    (by decide) (by decide) (by decide) (by decide)

/-- Counterexample to C4 as stated: at `size_t`-representable positions
near `2^64` the sums in the code wrap, so `sprite_overlap_check` returns
`false` although the strict-inequality rectangle rule holds. -/
theorem C4_counterexample :
    sprite_overlap_check ⟨1, 1, [1]⟩ (SZ - 1) 0 ⟨2, 2, [1, 1, 1, 1]⟩ (SZ - 2) 0 = false ∧
    SZ - 1 < (SZ - 2) + 2 ∧ (SZ - 1) + 1 > SZ - 2 ∧
    (0 : Nat) < 0 + 2 ∧ 0 + 1 > (0 : Nat) := by
  decide

/-! ## Claim C9: the initial alien grid -/

/-- Counterexample to C9 as stated: alien 0 sits in the bottom row (its
`y = 128` is minimal over the grid), so its row-from-bottom index is 0
(1-indexed: 1), for which the claimed formula `(rowFromBottom)/2 + 1`
yields type 1; the code gives it type 3. -/
theorem C9_counterexample :
    (initState.game.aliens 0).type = 3 ∧ (initState.game.aliens 0).y = 128 ∧
    (∀ i, i < initState.game.num_aliens →
      (initState.game.aliens 0).y ≤ (initState.game.aliens i).y) ∧
    (initState.game.aliens 0).type ≠ 0 / 2 + 1 ∧
    (initState.game.aliens 0).type ≠ 1 / 2 + 1 := by
  decide

/-- C9, amended: at game start exactly 60 aliens form the fixed 5×12
grid and alien `i` (row `i / 12` counted from the bottom, column
`i % 12`) has type `(5 - row) / 2 + 1`, so every initial type is a live
type in `{1, 2, 3}` and no alien starts dead. -/
theorem C9_grid :
    initState.game.num_aliens = 60 ∧
    ∀ i, i < initState.game.num_aliens →
      (initState.game.aliens i).type = (5 - i / 12) / 2 + 1 ∧
      (initState.game.aliens i).y = 17 * (i / 12) + 128 ∧
      (initState.game.aliens i).x = 16 * (i % 12) + 20 +
        (alien_death_sprite.width -
          (alien_sprites.getD (2 * ((5 - i / 12) / 2 + 1 - 1)) ⟨0, 0, []⟩).width) / 2 ∧
      ((initState.game.aliens i).type = 1 ∨ (initState.game.aliens i).type = 2 ∨
        (initState.game.aliens i).type = 3) ∧
      (initState.game.aliens i).type ≠ ALIEN_DEAD := by
  decide

/-- Witness for C9's amended statement at alien 0. -/
theorem C9_grid_witness :
    (initState.game.aliens 0).type = (5 - 0 / 12) / 2 + 1 ∧
    (initState.game.aliens 0).y = 17 * (0 / 12) + 128 ∧
    (initState.game.aliens 0).x = 16 * (0 % 12) + 20 +
      (alien_death_sprite.width -
        (alien_sprites.getD (2 * ((5 - 0 / 12) / 2 + 1 - 1)) ⟨0, 0, []⟩).width) / 2 ∧
    ((initState.game.aliens 0).type = 1 ∨ (initState.game.aliens 0).type = 2 ∨
      (initState.game.aliens 0).type = 3) ∧
    (initState.game.aliens 0).type ≠ ALIEN_DEAD :=
  C9_grid.2 0 (by decide)

/-! ## Claim C1: the kill scan does not stop after a kill -/

/-- C1 is a code bug: in `cexC1` one bullet overlaps two living aliens;
the `continue` after a kill (main.cpp:602) targets the inner alien loop,
so the scan does not stop and a single bullet kills both aliens in one
tick (the C++ additionally reads `bullets[num_bullets - 1]` with
`num_bullets = 0`, out of the array's bounds).  The claim — at most one
alien newly dead per bullet per tick — is what the spec demands. -/
theorem C1_bug :
    cexC1.game.num_bullets = 1 ∧
    (cexC1.game.aliens 0).type ≠ ALIEN_DEAD ∧
    (cexC1.game.aliens 1).type ≠ ALIEN_DEAD ∧
    ((step cexC1 ⟨0, false⟩).game.aliens 0).type = ALIEN_DEAD ∧
    ((step cexC1 ⟨0, false⟩).game.aliens 1).type = ALIEN_DEAD ∧
    (step cexC1 ⟨0, false⟩).game.num_bullets = 0 := by
  decide

/-! ## Claim C2: the player clamp -/

/-- C2 is a code bug.  Holding left from the start, `player.x` reaches 0
after 56 ticks; one more left tick evaluates `x + (-2)` in `size_t`,
`18446744073709551614 ≤ 0` is false, and `x` wraps to `2^64 - 2`, far
outside `[0, width - player_sprite.width]`.  The right clamp is also not
the claimed bound: from `x = 213 = width - player_sprite.width`, one
right tick sets `x = width - player_sprite.width - 2 = 211` instead of
keeping 213. -/
theorem C2_bug :
    (run initState (List.replicate 56 ⟨-1, false⟩)).game.player.x = 0 ∧
    (run initState (List.replicate 57 ⟨-1, false⟩)).game.player.x = SZ - 2 ∧
    initGame.width - player_sprite.width < SZ - 2 ∧
    atRightBound.player.x = atRightBound.width - player_sprite.width ∧
    (playerPhase atRightBound (2 * 1)).player.x =
      atRightBound.width - player_sprite.width - 2 := by
  set_option maxRecDepth 4000 in decide

/-! ## Claim C5: clipped sprite blitting -/

theorem hitsPixel_iff (W H : Nat) (sp : Sprite) (x y xi yi p : Nat) :
    hitsPixel W H sp x y xi yi p = true ↔
      (sp.data.getD (yi * sp.width + xi) 0 ≠ 0 ∧ destY sp y yi < H ∧ destX x xi < W ∧
       p = destY sp y yi * W + destX x xi) := by
  simp [hitsPixel, and_assoc]

theorem drawCell_width (b : Buffer) (sp : Sprite) (x y c xi yi : Nat) :
    (drawCell b sp x y c xi yi).width = b.width := by
  unfold drawCell; split <;> rfl

theorem drawCell_height (b : Buffer) (sp : Sprite) (x y c xi yi : Nat) :
    (drawCell b sp x y c xi yi).height = b.height := by
  unfold drawCell; split <;> rfl

theorem drawColLoop_width (sp : Sprite) (x y c xi : Nat) :
    ∀ (n : Nat) (b : Buffer), (drawColLoop sp x y c xi n b).width = b.width
  | 0, _ => rfl
  | Nat.succ n, b => by
    rw [drawColLoop, drawCell_width, drawColLoop_width sp x y c xi n b]

theorem drawColLoop_height (sp : Sprite) (x y c xi : Nat) :
    ∀ (n : Nat) (b : Buffer), (drawColLoop sp x y c xi n b).height = b.height
  | 0, _ => rfl
  | Nat.succ n, b => by
    rw [drawColLoop, drawCell_height, drawColLoop_height sp x y c xi n b]

theorem drawRowLoop_width (sp : Sprite) (x y c : Nat) :
    ∀ (n : Nat) (b : Buffer), (drawRowLoop sp x y c n b).width = b.width
  | 0, _ => rfl
  | Nat.succ n, b => by
    rw [drawRowLoop, drawColLoop_width, drawRowLoop_width sp x y c n b]

theorem drawRowLoop_height (sp : Sprite) (x y c : Nat) :
    ∀ (n : Nat) (b : Buffer), (drawRowLoop sp x y c n b).height = b.height
  | 0, _ => rfl
  | Nat.succ n, b => by
    rw [drawRowLoop, drawColLoop_height, drawRowLoop_height sp x y c n b]

theorem drawCell_data (b : Buffer) (sp : Sprite) (x y c xi yi p : Nat) :
    (drawCell b sp x y c xi yi).data p =
      if hitsPixel b.width b.height sp x y xi yi p then c else b.data p := by
  by_cases hp : hitsPixel b.width b.height sp x y xi yi p = true
  · rw [if_pos hp]
    rcases (hitsPixel_iff b.width b.height sp x y xi yi p).1 hp with ⟨ho, hsy, hsx, hpe⟩
    unfold drawCell
    rw [if_pos ⟨ho, hsy, hsx⟩, hpe]
    exact upd_same b.data _ c
  · rw [if_neg hp]
    unfold drawCell
    split_ifs with hc
    · have hne : p ≠ destY sp y yi * b.width + destX x xi := by
        intro he
        exact hp ((hitsPixel_iff b.width b.height sp x y xi yi p).2
          ⟨hc.1, hc.2.1, hc.2.2, he⟩)
      exact upd_other b.data _ p c hne
    · rfl

theorem drawColLoop_data (sp : Sprite) (x y c xi : Nat) :
    ∀ (n : Nat) (b : Buffer) (p : Nat),
      (drawColLoop sp x y c xi n b).data p =
        if (List.range n).any (fun yi => hitsPixel b.width b.height sp x y xi yi p) then c
        else b.data p
  | 0, b, p => by simp [drawColLoop]
  | Nat.succ n, b, p => by
    rw [drawColLoop, drawCell_data, drawColLoop_width, drawColLoop_height,
        drawColLoop_data sp x y c xi n b p, List.range_succ, List.any_append]
    by_cases h1 : hitsPixel b.width b.height sp x y xi n p = true
    · simp [h1]
    · simp [h1]

theorem drawRowLoop_data (sp : Sprite) (x y c : Nat) :
    ∀ (n : Nat) (b : Buffer) (p : Nat),
      (drawRowLoop sp x y c n b).data p =
        if (List.range n).any (fun xi =>
              (List.range sp.height).any fun yi =>
                hitsPixel b.width b.height sp x y xi yi p) then c
        else b.data p
  | 0, b, p => by simp [drawRowLoop]
  | Nat.succ n, b, p => by
    rw [drawRowLoop, drawColLoop_data, drawRowLoop_width, drawRowLoop_height,
        drawRowLoop_data sp x y c n b p, List.range_succ, List.any_append]
    by_cases h1 : (List.range sp.height).any
        (fun yi => hitsPixel b.width b.height sp x y n yi p) = true
    · simp [h1]
    · simp [h1]

/-- C5: `buffer_sprite_draw` writes `color` exactly at the pixels that
some opaque mask cell `(xi, yi)` reaches through its clipped destination
`(x + xi, sprite.height - 1 + y - yi)` (unsigned mod-`2^64`
coordinates, so a would-be-negative row wraps to a huge value and is
clipped by the bounds test), leaves every other pixel unchanged, and in
particular never touches an index at or beyond `width * height`; the
destination row equals the claim's `y + sprite.height - 1 - yi` form. -/
theorem C5_draw_clipped (b : Buffer) (sp : Sprite) (x y c p : Nat) :
    ((buffer_sprite_draw b sp x y c).data p =
      if spriteHits b.width b.height sp x y p then c else b.data p) ∧
    (b.width * b.height ≤ p → (buffer_sprite_draw b sp x y c).data p = b.data p) ∧
    (∀ yi : Nat, destY sp y yi =
      szOfInt ((y : Int) + (sp.height : Int) - 1 - (yi : Int))) := by
  have hmain := drawRowLoop_data sp x y c sp.width b p
  refine ⟨hmain, ?_, ?_⟩
  · intro hp
    rw [show buffer_sprite_draw b sp x y c = drawRowLoop sp x y c sp.width b from rfl, hmain]
    have hfalse : ((List.range sp.width).any fun xi =>
        (List.range sp.height).any fun yi =>
          hitsPixel b.width b.height sp x y xi yi p) ≠ true := by
      intro htrue
      rcases List.any_eq_true.1 htrue with ⟨xi, _, hx⟩
      rcases List.any_eq_true.1 hx with ⟨yi, _, hy⟩
      rcases (hitsPixel_iff b.width b.height sp x y xi yi p).1 hy with ⟨_, hsy, hsx, hpe⟩
      have hlt : destY sp y yi * b.width + destX x xi < b.width * b.height := by
        have h1 : destY sp y yi * b.width + destX x xi < (destY sp y yi + 1) * b.width := by
          have := hsx; nlinarith
        have h2 : (destY sp y yi + 1) * b.width ≤ b.height * b.width :=
          Nat.mul_le_mul_right _ hsy
        have h3 : b.height * b.width = b.width * b.height := Nat.mul_comm _ _
        omega
      omega
    rw [if_neg hfalse]
  · intro yi
    unfold destY
    have he : (sp.height : Int) - 1 + (y : Int) - (yi : Int) =
        (y : Int) + (sp.height : Int) - 1 - (yi : Int) := by ring
    rw [he]

/-- Witness for C5 at a concrete buffer: pixel index 16 of a 4×4 buffer
is outside `width * height`, so drawing leaves it unchanged. -/
theorem C5_draw_clipped_witness :
    (4 : Nat) * 4 ≤ 16 ∧
    (buffer_sprite_draw ⟨4, 4, fun _ => 0⟩ ⟨1, 1, [1]⟩ 1 2 7).data 16 =
      (⟨4, 4, fun _ => 0⟩ : Buffer).data 16 :=
  ⟨by decide, (C5_draw_clipped ⟨4, 4, fun _ => 0⟩ ⟨1, 1, [1]⟩ 1 2 7 16).2.1 (by decide)⟩

/-! ## Preservation lemmas for the simulation phases -/

theorem hitScan_pres (anims : List SpriteAnimation) (bi : Nat) :
    ∀ (fuel ai : Nat) (g : Game),
      (hitScan anims bi fuel ai g).height = g.height ∧
      (hitScan anims bi fuel ai g).width = g.width ∧
      (hitScan anims bi fuel ai g).num_aliens = g.num_aliens ∧
      (hitScan anims bi fuel ai g).player = g.player
  | 0, _, _ => ⟨rfl, rfl, rfl, rfl⟩
  | Nat.succ fuel, ai, g => by
    simp only [hitScan]
    split_ifs with h1 h2 h3
    · exact hitScan_pres anims bi fuel (ai + 1) g
    · exact hitScan_pres anims bi fuel (ai + 1) _
    · exact hitScan_pres anims bi fuel (ai + 1) g
    · exact ⟨rfl, rfl, rfl, rfl⟩

theorem bulletLoop_pres (anims : List SpriteAnimation) :
    ∀ (fuel bi : Nat) (g : Game),
      (bulletLoop anims fuel bi g).height = g.height ∧
      (bulletLoop anims fuel bi g).width = g.width ∧
      (bulletLoop anims fuel bi g).num_aliens = g.num_aliens ∧
      (bulletLoop anims fuel bi g).player = g.player
  | 0, _, _ => ⟨rfl, rfl, rfl, rfl⟩
  | Nat.succ fuel, bi, g => by
    simp only [bulletLoop]
    split_ifs with h1 h2
    · exact bulletLoop_pres anims fuel bi _
    · have ih := bulletLoop_pres anims fuel (bi + 1)
        (hitScan anims bi (moveBullet g bi).num_aliens 0 (moveBullet g bi))
      have hp := hitScan_pres anims bi (moveBullet g bi).num_aliens 0 (moveBullet g bi)
      exact ⟨ih.1.trans hp.1, ih.2.1.trans hp.2.1, ih.2.2.1.trans hp.2.2.1,
             ih.2.2.2.trans hp.2.2.2⟩
    · exact ⟨rfl, rfl, rfl, rfl⟩

theorem hitScan_num_le (anims : List SpriteAnimation) (bi : Nat) :
    ∀ (fuel ai : Nat) (g : Game),
      (hitScan anims bi fuel ai g).num_bullets ≤ g.num_bullets
  | 0, _, _ => le_refl _
  | Nat.succ fuel, ai, g => by
    simp only [hitScan]
    split_ifs with h1 h2 h3
    · exact hitScan_num_le anims bi fuel (ai + 1) g
    · exact le_trans (hitScan_num_le anims bi fuel (ai + 1) _) (Nat.sub_le _ 1)
    · exact hitScan_num_le anims bi fuel (ai + 1) g
    · exact le_refl _

theorem bulletLoop_num_le (anims : List SpriteAnimation) :
    ∀ (fuel bi : Nat) (g : Game),
      (bulletLoop anims fuel bi g).num_bullets ≤ g.num_bullets
  | 0, _, _ => le_refl _
  | Nat.succ fuel, bi, g => by
    simp only [bulletLoop]
    split_ifs with h1 h2
    · exact le_trans (bulletLoop_num_le anims fuel bi _) (Nat.sub_le _ 1)
    · exact le_trans (bulletLoop_num_le anims fuel (bi + 1) _)
        (hitScan_num_le anims bi (moveBullet g bi).num_aliens 0 (moveBullet g bi))
    · exact le_refl _

theorem playerPhase_pres (g : Game) (pmd : Int) :
    (playerPhase g pmd).height = g.height ∧
    (playerPhase g pmd).width = g.width ∧
    (playerPhase g pmd).num_aliens = g.num_aliens ∧
    (playerPhase g pmd).aliens = g.aliens ∧
    (playerPhase g pmd).num_bullets = g.num_bullets ∧
    (playerPhase g pmd).bullets = g.bullets ∧
    (playerPhase g pmd).player.y = g.player.y := by
  unfold playerPhase
  split_ifs <;> exact ⟨rfl, rfl, rfl, rfl, rfl, rfl, rfl⟩

theorem firePhase_pres (g : Game) (fire : Bool) :
    (firePhase g fire).height = g.height ∧
    (firePhase g fire).width = g.width ∧
    (firePhase g fire).num_aliens = g.num_aliens ∧
    (firePhase g fire).aliens = g.aliens ∧
    (firePhase g fire).player = g.player := by
  unfold firePhase
  split_ifs <;> exact ⟨rfl, rfl, rfl, rfl, rfl⟩

/-! ## Claim C3: bullet bounds -/

theorem BulletInv_except (g : Game) (bi : Nat) (h : BulletInv g) : BulletInvExcept g bi :=
  fun i hi _ => h i hi

theorem swapRemove_BulletInv (g : Game) (bi : Nat) (h : BulletInvExcept g bi) :
    BulletInv (swapRemoveBullet g bi) := by
  intro i hi
  have hnum : (swapRemoveBullet g bi).num_bullets = g.num_bullets - 1 := rfl
  rw [hnum] at hi
  have hh : (swapRemoveBullet g bi).height = g.height := rfl
  rw [hh]
  by_cases hib : i = bi
  · have hv : (swapRemoveBullet g bi).bullets i = g.bullets (g.num_bullets - 1) := by
      show upd g.bullets bi (g.bullets (g.num_bullets - 1)) i = _
      rw [hib]
      exact upd_same _ _ _
    rw [hv]
    exact h (g.num_bullets - 1) (by omega) (by omega)
  · have hv : (swapRemoveBullet g bi).bullets i = g.bullets i := upd_other _ _ _ _ hib
    rw [hv]
    exact h i (by omega) hib

theorem moveBullet_BulletInvExcept (g : Game) (bi : Nat) (h : BulletInv g) :
    BulletInvExcept (moveBullet g bi) bi := by
  intro i hi hne
  have hv : (moveBullet g bi).bullets i = g.bullets i := upd_other _ _ _ _ hne
  have hnum : (moveBullet g bi).num_bullets = g.num_bullets := rfl
  have hh : (moveBullet g bi).height = g.height := rfl
  rw [hv, hnum] at *
  exact h i hi

theorem killAlien_BulletInv (g : Game) (ai w : Nat) (h : BulletInv g) :
    BulletInv (killAlien g ai w) := h

theorem hitScan_BulletInv (anims : List SpriteAnimation) (bi : Nat) :
    ∀ (fuel ai : Nat) (g : Game), BulletInv g → BulletInv (hitScan anims bi fuel ai g)
  | 0, _, _, h => h
  | Nat.succ fuel, ai, g, h => by
    simp only [hitScan]
    split_ifs with h1 h2 h3
    · exact hitScan_BulletInv anims bi fuel (ai + 1) g h
    · exact hitScan_BulletInv anims bi fuel (ai + 1) _
        (swapRemove_BulletInv _ bi (BulletInv_except _ bi (killAlien_BulletInv g ai _ h)))
    · exact hitScan_BulletInv anims bi fuel (ai + 1) g h
    · exact h

theorem bulletLoop_BulletInv (anims : List SpriteAnimation) :
    ∀ (fuel bi : Nat) (g : Game), BulletInv g → BulletInv (bulletLoop anims fuel bi g)
  | 0, _, _, h => h
  | Nat.succ fuel, bi, g, h => by
    simp only [bulletLoop]
    split_ifs with h1 h2
    · exact bulletLoop_BulletInv anims fuel bi _
        (swapRemove_BulletInv _ bi (moveBullet_BulletInvExcept g bi h))
    · refine bulletLoop_BulletInv anims fuel (bi + 1) _
        (hitScan_BulletInv anims bi _ 0 _ ?_)
      -- after the move, slot `bi` passed the bounds check, every other
      -- slot is untouched, so the full invariant holds again
      intro i hi
      by_cases hib : i = bi
      · have hv : (moveBullet g bi).bullets bi =
            { g.bullets bi with y := szOfInt (((g.bullets bi).y : Int) + (g.bullets bi).dir) } :=
          upd_same _ _ _
        have hd : ((moveBullet g bi).bullets bi).dir = (g.bullets bi).dir := by rw [hv]
        push_neg at h2
        refine ⟨?_, ?_, ?_⟩ <;> rw [hib]
        · omega
        · omega
        · exact hd.trans (h bi h1).2.2
      · exact moveBullet_BulletInvExcept g bi h i hi hib
    · exact h

theorem playerPhase_BulletInv (g : Game) (pmd : Int) (h : BulletInv g) :
    BulletInv (playerPhase g pmd) := by
  intro i hi
  obtain ⟨hh, _, _, _, hn, hb, _⟩ := playerPhase_pres g pmd
  rw [hn] at hi
  rw [hb, hh]
  exact h i hi

theorem firePhase_BulletInv (g : Game) (fire : Bool)
    (hh : g.height = 256) (hp : g.player.y = 32) (h : BulletInv g) :
    BulletInv (firePhase g fire) := by
  unfold firePhase
  split_ifs with hc
  · intro i hi
    dsimp only at hi ⊢
    by_cases hie : i = g.num_bullets
    · rw [hie, upd_same, hh, hp]
      refine ⟨?_, ?_, rfl⟩
      · show bullet_sprite.height ≤ szOfInt (((32 : Nat) : Int) + ((player_sprite.height : Nat) : Int))
        decide
      · show szOfInt (((32 : Nat) : Int) + ((player_sprite.height : Nat) : Int)) < 256
        decide
    · rw [upd_other _ _ _ _ hie, hh]
      have hi2 : i < g.num_bullets := by omega
      have h3 := h i hi2
      exact ⟨h3.1, by omega, h3.2.2⟩
  · exact h

theorem step_StInv (s : GameState) (inp : Input) (h : StInv s) : StInv (step s inp) := by
  obtain ⟨hh, hp, hb⟩ := h
  have hb1 : BulletInv (bulletPhase (s.anims.map animTick) s.game) :=
    bulletLoop_BulletInv _ _ 0 _ hb
  have hpres := bulletLoop_pres (s.anims.map animTick) s.game.num_bullets 0 s.game
  have hh1 : (bulletPhase (s.anims.map animTick) s.game).height = 256 := hpres.1.trans hh
  have hpl : (bulletPhase (s.anims.map animTick) s.game).player = s.game.player := hpres.2.2.2
  have hp1 : (bulletPhase (s.anims.map animTick) s.game).player.y = 32 := by rw [hpl]; exact hp
  have hpp := playerPhase_pres (bulletPhase (s.anims.map animTick) s.game) (2 * inp.move_dir)
  have hb2 := playerPhase_BulletInv _ (2 * inp.move_dir) hb1
  have hh2 := hpp.1.trans hh1
  have hp2 := hpp.2.2.2.2.2.2.trans hp1
  have hb3 := firePhase_BulletInv _ inp.fire hh2 hp2 hb2
  have hfp := firePhase_pres (playerPhase (bulletPhase (s.anims.map animTick) s.game)
    (2 * inp.move_dir)) inp.fire
  refine ⟨hfp.1.trans hh2, ?_, hb3⟩
  show (firePhase (playerPhase (bulletPhase (s.anims.map animTick) s.game)
    (2 * inp.move_dir)) inp.fire).player.y = 32
  rw [hfp.2.2.2.2]
  exact hp2

theorem run_StInv : ∀ (inputs : List Input) (s : GameState), StInv s → StInv (run s inputs)
  | [], _, h => h
  | inp :: rest, s, h => run_StInv rest (step s inp) (step_StInv s inp h)

theorem init_StInv : StInv initState := by
  refine ⟨rfl, rfl, ?_⟩
  intro i hi
  have : initState.game.num_bullets = 0 := rfl
  omega

/-- C3: in every state reachable from the start, every active bullet's
`y` lies in `[bullet_sprite.height, height)`: the bullet loop moves each
bullet by `dir` and swap-removes, without collision testing, any bullet
whose new `y` leaves that range, and every bullet that survives the step
is either checked in range, untouched, or freshly spawned at `y = 39`. -/
theorem C3_bullet_bounds (inputs : List Input) (i : Nat)
    (hi : i < (run initState inputs).game.num_bullets) :
    bullet_sprite.height ≤ ((run initState inputs).game.bullets i).y ∧
    ((run initState inputs).game.bullets i).y < (run initState inputs).game.height := by
  have h := run_StInv inputs initState init_StInv
  exact ⟨(h.2.2 i hi).1, (h.2.2 i hi).2.1⟩

/-- Witness for C3: after firing once from the start state there is one
active bullet and it satisfies the bounds. -/
theorem C3_bullet_bounds_witness :
    0 < (run initState [⟨0, true⟩]).game.num_bullets ∧
    (bullet_sprite.height ≤ ((run initState [⟨0, true⟩]).game.bullets 0).y ∧
     ((run initState [⟨0, true⟩]).game.bullets 0).y <
       (run initState [⟨0, true⟩]).game.height) :=
  ⟨by decide, C3_bullet_bounds [⟨0, true⟩] 0 (by decide)⟩

/-! ## Claim C6: bullet count never exceeds capacity -/

theorem step_num_bullets_le (s : GameState) (inp : Input)
    (h : s.game.num_bullets ≤ GAME_MAX_BULLETS) :
    (step s inp).game.num_bullets ≤ GAME_MAX_BULLETS := by
  have h1 : (bulletPhase (s.anims.map animTick) s.game).num_bullets ≤ s.game.num_bullets :=
    bulletLoop_num_le _ _ 0 _
  have h2 := (playerPhase_pres (bulletPhase (s.anims.map animTick) s.game)
    (2 * inp.move_dir)).2.2.2.2.1
  show (firePhase (playerPhase (bulletPhase (s.anims.map animTick) s.game)
    (2 * inp.move_dir)) inp.fire).num_bullets ≤ GAME_MAX_BULLETS
  unfold firePhase
  split_ifs with hc
  · simp only
    omega
  · omega

/-- C6: in every state reachable from the start the active bullet count
is at most `GAME_MAX_BULLETS = 128`: the fire phase spawns only under
the guard `num_bullets < GAME_MAX_BULLETS`, and both despawn paths of
the bullet loop only shrink the count. -/
theorem C6_capacity (inputs : List Input) :
    (run initState inputs).game.num_bullets ≤ GAME_MAX_BULLETS := by
  have h : ∀ (l : List Input) (s : GameState), s.game.num_bullets ≤ GAME_MAX_BULLETS →
      (run s l).game.num_bullets ≤ GAME_MAX_BULLETS := by
    intro l
    induction l with
    | nil => exact fun s h => h
    | cons inp rest ih => exact fun s hs => ih (step s inp) (step_num_bullets_le s inp hs)
  exact h inputs initState (by decide)

/-! ## Claim C7: the death sequence of an alien -/

theorem hitScan_dead_alien (anims : List SpriteAnimation) (bi : Nat) (j : Nat) :
    ∀ (fuel ai : Nat) (g : Game), (g.aliens j).type = ALIEN_DEAD →
      ((hitScan anims bi fuel ai g).aliens j).type = ALIEN_DEAD
  | 0, _, _, h => h
  | Nat.succ fuel, ai, g, h => by
    simp only [hitScan]
    split_ifs with h1 h2 h3
    · exact hitScan_dead_alien anims bi j fuel (ai + 1) g h
    · refine hitScan_dead_alien anims bi j fuel (ai + 1) _ ?_
      show ((killAlien g ai _).aliens j).type = ALIEN_DEAD
      by_cases hj : j = ai
      · rw [hj]
        show (upd g.aliens ai _ ai).type = ALIEN_DEAD
        rw [upd_same]
      · show (upd g.aliens ai _ j).type = ALIEN_DEAD
        rw [upd_other _ _ _ _ hj]
        exact h
    · exact hitScan_dead_alien anims bi j fuel (ai + 1) g h
    · exact h

theorem bulletLoop_dead_alien (anims : List SpriteAnimation) (j : Nat) :
    ∀ (fuel bi : Nat) (g : Game), (g.aliens j).type = ALIEN_DEAD →
      ((bulletLoop anims fuel bi g).aliens j).type = ALIEN_DEAD
  | 0, _, _, h => h
  | Nat.succ fuel, bi, g, h => by
    simp only [bulletLoop]
    split_ifs with h1 h2
    · exact bulletLoop_dead_alien anims j fuel bi _ h
    · exact bulletLoop_dead_alien anims j fuel (bi + 1) _
        (hitScan_dead_alien anims bi j _ 0 _ h)
    · exact h

theorem decayPhase_dead (g : Game) (dc : Nat → Nat) (i : Nat)
    (hi : i < g.num_aliens) (ht : (g.aliens i).type = ALIEN_DEAD) :
    decayPhase g dc i = dc i - 1 := by
  unfold decayPhase
  by_cases hz : dc i ≠ 0
  · rw [if_pos ⟨hi, ht, hz⟩]
  · rw [if_neg (by tauto)]
    omega

theorem step_dead_alien (s : GameState) (inp : Input) (i : Nat)
    (hi : i < s.game.num_aliens) (ht : (s.game.aliens i).type = ALIEN_DEAD) :
    (step s inp).game.num_aliens = s.game.num_aliens ∧
    ((step s inp).game.aliens i).type = ALIEN_DEAD ∧
    (step s inp).death_counters i = s.death_counters i - 1 := by
  have hfp := firePhase_pres (playerPhase (bulletPhase (s.anims.map animTick) s.game)
    (2 * inp.move_dir)) inp.fire
  have hpp := playerPhase_pres (bulletPhase (s.anims.map animTick) s.game) (2 * inp.move_dir)
  have hbp := bulletLoop_pres (s.anims.map animTick) s.game.num_bullets 0 s.game
  refine ⟨?_, ?_, ?_⟩
  · show (firePhase (playerPhase (bulletPhase (s.anims.map animTick) s.game)
      (2 * inp.move_dir)) inp.fire).num_aliens = s.game.num_aliens
    rw [hfp.2.2.1, hpp.2.2.1]
    exact hbp.2.2.1
  · show ((firePhase (playerPhase (bulletPhase (s.anims.map animTick) s.game)
      (2 * inp.move_dir)) inp.fire).aliens i).type = ALIEN_DEAD
    rw [hfp.2.2.2.1, hpp.2.2.2.1]
    exact bulletLoop_dead_alien (s.anims.map animTick) i s.game.num_bullets 0 s.game ht
  · exact decayPhase_dead s.game s.death_counters i hi ht

theorem run_dead_alien :
    ∀ (inputs : List Input) (s : GameState) (i : Nat) (c : Nat),
      i < s.game.num_aliens → (s.game.aliens i).type = ALIEN_DEAD →
      s.death_counters i = c →
      i < (run s inputs).game.num_aliens ∧
      ((run s inputs).game.aliens i).type = ALIEN_DEAD ∧
      (run s inputs).death_counters i = c - inputs.length
  | [], s, i, c, hi, ht, hc => ⟨hi, ht, by simpa [run] using hc⟩
  | inp :: rest, s, i, c, hi, ht, hc => by
    obtain ⟨h1, h2, h3⟩ := step_dead_alien s inp i hi ht
    have ih := run_dead_alien rest (step s inp) i (c - 1) (by omega) h2 (by omega)
    refine ⟨ih.1, ih.2.1, ?_⟩
    rw [show run s (inp :: rest) = run (step s inp) rest from rfl, ih.2.2]
    simp only [List.length_cons]
    omega

/-- C7: from any state in which alien `i` is dead with death counter 10
(the state at the start of the first tick after the kill), over any
input sequence the alien's type stays `ALIEN_DEAD` forever, the counter
decreases by exactly 1 per tick while nonzero (`10 - k` after `k`
ticks), and the draw loop shows its death sprite in a tick exactly when
fewer than 10 ticks have elapsed, i.e. on exactly 10 ticks. -/
theorem C7_death_sequence (s : GameState) (inputs : List Input) (i : Nat)
    (hi : i < s.game.num_aliens) (ht : (s.game.aliens i).type = ALIEN_DEAD)
    (hc : s.death_counters i = 10) :
    ((run s inputs).game.aliens i).type = ALIEN_DEAD ∧
    (run s inputs).death_counters i = 10 - inputs.length ∧
    (deathSpriteShown (run s inputs) i = true ↔ inputs.length < 10) := by
  obtain ⟨h1, h2, h3⟩ := run_dead_alien inputs s i 10 hi ht hc
  refine ⟨h2, h3, ?_⟩
  unfold deathSpriteShown
  simp only [Bool.and_eq_true, decide_eq_true_eq]
  constructor
  · intro hx
    have hne := hx.1.2
    omega
  · intro hx
    exact ⟨⟨h1, by omega⟩, h2⟩

/-- Witness for C7 at the concrete state `deadAlienState` with no
further inputs. -/
theorem C7_death_sequence_witness :
    ((run deadAlienState []).game.aliens 0).type = ALIEN_DEAD ∧
    (run deadAlienState []).death_counters 0 = 10 - ([] : List Input).length ∧
    (deathSpriteShown (run deadAlienState []) 0 = true ↔ ([] : List Input).length < 10) :=
  C7_death_sequence deadAlienState [] 0 (by decide) (by decide) (by decide)

/-! ## Claim C10: living aliens keep their initial death counter -/

theorem hitScan_alien_cases (anims : List SpriteAnimation) (bi : Nat) (j : Nat) :
    ∀ (fuel ai : Nat) (g : Game),
      (hitScan anims bi fuel ai g).aliens j = g.aliens j ∨
      ((hitScan anims bi fuel ai g).aliens j).type = ALIEN_DEAD
  | 0, _, _ => Or.inl rfl
  | Nat.succ fuel, ai, g => by
    simp only [hitScan]
    split_ifs with h1 h2 h3
    · exact hitScan_alien_cases anims bi j fuel (ai + 1) g
    · rcases hitScan_alien_cases anims bi j fuel (ai + 1)
        (swapRemoveBullet (killAlien g ai (currentAlienSprite anims (g.aliens ai).type).width) bi)
        with hcase | hcase
      · rw [hcase]
        by_cases hj : j = ai
        · refine Or.inr ?_
          show (upd g.aliens ai _ j).type = ALIEN_DEAD
          rw [hj, upd_same]
        · refine Or.inl ?_
          show upd g.aliens ai _ j = g.aliens j
          exact upd_other _ _ _ _ hj
      · exact Or.inr hcase
    · exact hitScan_alien_cases anims bi j fuel (ai + 1) g
    · exact Or.inl rfl

theorem bulletLoop_alien_cases (anims : List SpriteAnimation) (j : Nat) :
    ∀ (fuel bi : Nat) (g : Game),
      (bulletLoop anims fuel bi g).aliens j = g.aliens j ∨
      ((bulletLoop anims fuel bi g).aliens j).type = ALIEN_DEAD
  | 0, _, _ => Or.inl rfl
  | Nat.succ fuel, bi, g => by
    simp only [bulletLoop]
    split_ifs with h1 h2
    · exact bulletLoop_alien_cases anims j fuel bi _
    · rcases bulletLoop_alien_cases anims j fuel (bi + 1)
        (hitScan anims bi (moveBullet g bi).num_aliens 0 (moveBullet g bi)) with hcase | hcase
      · rw [hcase]
        exact hitScan_alien_cases anims bi j _ 0 _
      · exact Or.inr hcase
    · exact Or.inl rfl

theorem decayPhase_live (g : Game) (dc : Nat → Nat) (i : Nat)
    (ht : (g.aliens i).type ≠ ALIEN_DEAD) :
    decayPhase g dc i = dc i := by
  unfold decayPhase
  rw [if_neg (by tauto)]

theorem step_LiveCounters (s : GameState) (inp : Input) (h : LiveCountersInv s) :
    LiveCountersInv (step s inp) := by
  intro i hi hlive
  have hfp := firePhase_pres (playerPhase (bulletPhase (s.anims.map animTick) s.game)
    (2 * inp.move_dir)) inp.fire
  have hpp := playerPhase_pres (bulletPhase (s.anims.map animTick) s.game) (2 * inp.move_dir)
  have hbp := bulletLoop_pres (s.anims.map animTick) s.game.num_bullets 0 s.game
  have hal : (step s inp).game.aliens i =
      (bulletPhase (s.anims.map animTick) s.game).aliens i := by
    show (firePhase (playerPhase (bulletPhase (s.anims.map animTick) s.game)
      (2 * inp.move_dir)) inp.fire).aliens i = _
    rw [hfp.2.2.2.1, hpp.2.2.2.1]
  rw [hal] at hlive
  have hpre : (s.game.aliens i).type ≠ ALIEN_DEAD := by
    rcases bulletLoop_alien_cases (s.anims.map animTick) i s.game.num_bullets 0 s.game
      with hcase | hcase
    · rw [show bulletPhase (s.anims.map animTick) s.game =
        bulletLoop (s.anims.map animTick) s.game.num_bullets 0 s.game from rfl, hcase] at hlive
      exact hlive
    · exact absurd hcase hlive
  have hi2 : i < s.game.num_aliens := by
    have hnum : (step s inp).game.num_aliens = s.game.num_aliens := by
      show (firePhase (playerPhase (bulletPhase (s.anims.map animTick) s.game)
        (2 * inp.move_dir)) inp.fire).num_aliens = s.game.num_aliens
      rw [hfp.2.2.1, hpp.2.2.1]
      exact hbp.2.2.1
    omega
  show decayPhase s.game s.death_counters i = 10
  rw [decayPhase_live s.game s.death_counters i hpre]
  exact h i hi2 hpre

theorem run_LiveCounters :
    ∀ (inputs : List Input) (s : GameState), LiveCountersInv s →
      LiveCountersInv (run s inputs)
  | [], _, h => h
  | inp :: rest, s, h => run_LiveCounters rest (step s inp) (step_LiveCounters s inp h)

theorem init_LiveCounters : LiveCountersInv initState := fun _ _ _ => rfl

/-- C10: in every state reachable from the start, every alien whose type
is not `ALIEN_DEAD` still has its initial death counter 10 (the decay
loop decrements only dead aliens' counters), so the draw loop's
zero-counter gate never suppresses a living alien. -/
theorem C10_live_counters (inputs : List Input) (i : Nat)
    (hi : i < (run initState inputs).game.num_aliens)
    (hlive : ((run initState inputs).game.aliens i).type ≠ ALIEN_DEAD) :
    (run initState inputs).death_counters i = 10 ∧
    (run initState inputs).death_counters i ≠ 0 := by
  have h := run_LiveCounters inputs initState init_LiveCounters i hi hlive
  exact ⟨h, by omega⟩

/-- Witness for C10: the start state itself, alien 0 (alive, type 3). -/
theorem C10_live_counters_witness :
    (run initState []).death_counters 0 = 10 ∧
    (run initState []).death_counters 0 ≠ 0 :=
  C10_live_counters [] 0 (by decide) (by decide)

/-! ## Claim C8: the animation clocks -/

theorem initState_anims : initState.anims = animsAt 0 := rfl

theorem animsAt_tick (n : Nat) : (animsAt n).map animTick = animsAt (n + 1) := by
  have ht : (if (n % 20 + 1) % SZ = 2 * 10 then 0 else (n % 20 + 1) % SZ) = (n + 1) % 20 := by
    have h1 : (n % 20 + 1) % SZ = n % 20 + 1 := Nat.mod_eq_of_lt (by unfold SZ; omega)
    rw [h1]
    by_cases h2 : n % 20 + 1 = 20
    · rw [if_pos (by omega)]
      omega
    · rw [if_neg (by omega)]
      omega
  simp only [animsAt, initAnims, List.map_cons, List.map_nil, animTick]
  rw [ht]

theorem run_anims :
    ∀ (inputs : List Input) (s : GameState) (n : Nat),
      s.anims = animsAt n → (run s inputs).anims = animsAt (n + inputs.length)
  | [], s, n, h => by simpa using h
  | inp :: rest, s, n, h => by
    have hstep : (step s inp).anims = animsAt (n + 1) := by
      show s.anims.map animTick = animsAt (n + 1)
      rw [h, animsAt_tick]
    have ih := run_anims rest (step s inp) (n + 1) hstep
    rw [show run s (inp :: rest) = run (step s inp) rest from rfl, ih, List.length_cons]
    congr 1
    omega

/-- C8: after any number of steps each of the three animation clocks is
a looping animation with `num_frames = 2`, `frame_duration = 10` and two
frames, its elapsed time satisfies `time < num_frames * frame_duration`,
the current frame index `time / frame_duration` equals
`(time / frame_duration) % num_frames` and indexes a valid frame, and
one more step advances the clock by exactly 1 (mod the 20-tick loop). -/
theorem C8_animation (inputs : List Input) (inp : Input) (k : Nat) (hk : k < 3) :
    ((run initState inputs).anims.getD k ⟨true, 0, 0, 0, []⟩).num_frames = 2 ∧
    ((run initState inputs).anims.getD k ⟨true, 0, 0, 0, []⟩).frame_duration = 10 ∧
    ((run initState inputs).anims.getD k ⟨true, 0, 0, 0, []⟩).time < 2 * 10 ∧
    ((run initState inputs).anims.getD k ⟨true, 0, 0, 0, []⟩).time / 10 =
      (((run initState inputs).anims.getD k ⟨true, 0, 0, 0, []⟩).time / 10) % 2 ∧
    ((run initState inputs).anims.getD k ⟨true, 0, 0, 0, []⟩).time / 10 <
      ((run initState inputs).anims.getD k ⟨true, 0, 0, 0, []⟩).frames.length ∧
    ((run initState (inputs ++ [inp])).anims.getD k ⟨true, 0, 0, 0, []⟩).time =
      (((run initState inputs).anims.getD k ⟨true, 0, 0, 0, []⟩).time + 1) % (2 * 10) := by
  have h1 := run_anims inputs initState 0 initState_anims
  have h2 := run_anims (inputs ++ [inp]) initState 0 initState_anims
  rw [h1, h2, List.length_append]
  interval_cases k <;>
    simp only [animsAt, initAnims, List.map_cons, List.map_nil, List.getD_cons_zero,
      List.getD_cons_succ, List.length_cons, List.length_nil] <;>
    exact ⟨trivial, trivial, by omega, by omega, by omega, by omega⟩

/-- Witness for C8 at the start state: clock 0, no steps taken, one
further step. -/
theorem C8_animation_witness :
    ((run initState []).anims.getD 0 ⟨true, 0, 0, 0, []⟩).num_frames = 2 ∧
    ((run initState []).anims.getD 0 ⟨true, 0, 0, 0, []⟩).frame_duration = 10 ∧
    ((run initState []).anims.getD 0 ⟨true, 0, 0, 0, []⟩).time < 2 * 10 ∧
    ((run initState []).anims.getD 0 ⟨true, 0, 0, 0, []⟩).time / 10 =
      (((run initState []).anims.getD 0 ⟨true, 0, 0, 0, []⟩).time / 10) % 2 ∧
    ((run initState []).anims.getD 0 ⟨true, 0, 0, 0, []⟩).time / 10 <
      ((run initState []).anims.getD 0 ⟨true, 0, 0, 0, []⟩).frames.length ∧
    ((run initState ([] ++ [⟨0, false⟩])).anims.getD 0 ⟨true, 0, 0, 0, []⟩).time =
      (((run initState []).anims.getD 0 ⟨true, 0, 0, 0, []⟩).time + 1) % (2 * 10) :=
  C8_animation [] ⟨0, false⟩ 0 (by decide)
